import Mathlib

/-!
# Verification of `cliweather` (`src/main.rs`)

A shallow embedding of the weather CLI in `src/main.rs`.  Strings on which
line-level reasoning is needed (file contents, prompt inputs) are modelled
as `List Char`; everything else uses `String`.  JSON numbers are modelled
as integers (`Json.int`) or non-integral numbers (`Json.float`, carried as
a rational; the program never computes with them, it only stores and
renders them, and no claim depends on the textual rendering of a
non-integral number).
-/

set_option autoImplicit false

namespace CliWeather

/-! ## JSON values (the `serde_json` data model) -/

/-- A JSON value as `serde_json::Value` presents it: `null`, booleans,
numbers (split into integral and non-integral, matching serde's
`i64/u64` vs `f64` distinction), strings, arrays and objects. -/
inductive Json where
  | null
  | bool (b : Bool)
  | int (i : Int)
  | float (q : ℚ)
  | str (s : String)
  | arr (elems : List Json)
  | obj (fields : List (String × Json))

/-! ## The deserialized response shape (`WeatherResponse` and friends) -/

/-- `struct Main { temp: f64, pressure: i32, humidity: i32 }`.
`temp` is carried as a rational (the exact value of the JSON literal);
`pressure` and `humidity` as integers constrained to the `i32` range at
deserialization time. -/
structure Main where
  temp : ℚ
  pressure : Int
  humidity : Int
deriving Repr, DecidableEq

/-- `struct WeatherCondition { description: String }`. -/
structure WeatherCondition where
  description : String
deriving Repr, DecidableEq

/-- `struct WeatherResponse { main: Main, name: String, weather: Vec<WeatherCondition> }`. -/
structure WeatherResponse where
  main : Main
  name : String
  weather : List WeatherCondition
deriving Repr, DecidableEq

/-! ## serde deserialization of the derived `Deserialize` impls

The derived impls require a JSON object, look each declared field up by
name (missing field or wrong type is an error), and ignore unknown
fields.  An `i32` field accepts only integral numbers in the `i32`
range; an `f64` field accepts any number. -/

/-- Look a required struct field up in a JSON object's field list. -/
def deserField (fields : List (String × Json)) (key : String) : Except String Json :=
  match fields.lookup key with
  | some v => .ok v
  | none => .error ("missing field " ++ key)

/-- Deserialize a `String` field. -/
def deserStr : Json → Except String String
  | .str s => .ok s
  | _ => .error "invalid type: expected a string"

/-- Deserialize an `f64` field: any JSON number is accepted. -/
def deserF64 : Json → Except String ℚ
  | .int i => .ok (i : ℚ)
  | .float q => .ok q
  | _ => .error "invalid type: expected f64"

def i32Min : Int := -(2 ^ 31)

def i32Max : Int := 2 ^ 31 - 1

/-- Deserialize an `i32` field: only integral numbers in `i32` range. -/
def deserI32 : Json → Except String Int
  | .int i => if i32Min ≤ i ∧ i ≤ i32Max then .ok i
              else .error "invalid value: integer out of i32 range"
  | _ => .error "invalid type: expected i32"

/-- Derived `Deserialize` for `Main`. -/
def deserMain : Json → Except String Main
  | .obj fields => do
      let t ← deserField fields "temp" >>= deserF64
      let p ← deserField fields "pressure" >>= deserI32
      let h ← deserField fields "humidity" >>= deserI32
      .ok ⟨t, p, h⟩
  | _ => .error "invalid type: expected struct Main"

/-- Derived `Deserialize` for `WeatherCondition`. -/
def deserWeatherCondition : Json → Except String WeatherCondition
  | .obj fields => do
      let d ← deserField fields "description" >>= deserStr
      .ok ⟨d⟩
  | _ => .error "invalid type: expected struct WeatherCondition"

/-- Deserialize each element of a JSON array as a `WeatherCondition`.
An empty array is accepted: `Vec<WeatherCondition>` has no non-emptiness
requirement. -/
def deserConditionList : List Json → Except String (List WeatherCondition)
  | [] => .ok []
  | x :: xs => do
      let c ← deserWeatherCondition x
      let cs ← deserConditionList xs
      .ok (c :: cs)

/-- Derived `Deserialize` for `Vec<WeatherCondition>`. -/
def deserWeatherVec : Json → Except String (List WeatherCondition)
  | .arr xs => deserConditionList xs
  | _ => .error "invalid type: expected a sequence"

/-- Derived `Deserialize` for `WeatherResponse` (`response.json()`'s shape
stage on the success path). -/
def deserializeWeatherResponse : Json → Except String WeatherResponse
  | .obj fields => do
      let m ← deserField fields "main" >>= deserMain
      let n ← deserField fields "name" >>= deserStr
      let w ← deserField fields "weather" >>= deserWeatherVec
      .ok ⟨m, n, w⟩
  | _ => .error "invalid type: expected struct WeatherResponse"

/-! ## Rendering a `serde_json::Value` with `Display` (compact form)

`println!("❌ Error: {}", error_message)` renders the JSON value in
serde_json's compact `Display` form: no added whitespace, strings quoted
with control characters escaped.  The textual form of a non-integral
number (`Grisu` shortest-representation printing of an `f64`) is
abstracted as the rational's own representation; no claim depends on it. -/

/-- One hexadecimal digit (lowercase), for `\uXXXX` escapes. -/
def hexDigit (n : Nat) : Char :=
  if n < 10 then Char.ofNat (48 + n) else Char.ofNat (87 + n)

/-- Four lowercase hexadecimal digits. -/
def hex4 (n : Nat) : String :=
  String.mk [hexDigit (n / 4096 % 16), hexDigit (n / 256 % 16),
             hexDigit (n / 16 % 16), hexDigit (n % 16)]

/-- serde_json's escaping of one character inside a JSON string literal. -/
def escapeChar (c : Char) : String :=
  if c = '"' then "\\\""
  else if c = '\\' then "\\\\"
  else if c = '\n' then "\\n"
  else if c = '\r' then "\\r"
  else if c = '\t' then "\\t"
  else if c.toNat = 8 then "\\b"
  else if c.toNat = 12 then "\\f"
  else if c.toNat < 32 then "\\u" ++ hex4 c.toNat
  else String.mk [c]

/-- serde_json's escaping of a whole string (without the quotes). -/
def escapeString (s : String) : String :=
  s.data.foldl (fun acc c => acc ++ escapeChar c) ""

mutual

/-- Compact rendering of a JSON value, as `serde_json::Value`'s `Display`. -/
def renderJson : Json → String
  | .null => "null"
  | .bool true => "true"
  | .bool false => "false"
  | .int i => toString i
  | .float q => toString q
  | .str s => "\"" ++ escapeString s ++ "\""
  | .arr xs => "[" ++ renderArr xs ++ "]"
  | .obj kvs => "\x7b" ++ renderObj kvs ++ "\x7d"

/-- Comma-separated rendering of array elements. -/
def renderArr : List Json → String
  | [] => ""
  | [x] => renderJson x
  | x :: y :: xs => renderJson x ++ "," ++ renderArr (y :: xs)

/-- Comma-separated rendering of object entries. -/
def renderObj : List (String × Json) → String
  | [] => ""
  | [(k, v)] => "\"" ++ escapeString k ++ "\":" ++ renderJson v
  | (k, v) :: e :: kvs =>
      "\"" ++ escapeString k ++ "\":" ++ renderJson v ++ "," ++ renderObj (e :: kvs)

end

/-! ## `get_weather_icon` -/

/-- `get_weather_icon` from `src/main.rs`: lowercase the description and
match it against the fixed table, defaulting to the rainbow glyph.  The
Rust `match` on string literals is a first-match chain, written here as
the equivalent chain of equality tests (the `"mist" | "haze"` arm
becomes a disjunction).  Rust's `to_lowercase` is modelled by
`String.toLower` (per-character lowercasing; they agree on all ASCII
input, and every key in the table is ASCII). -/
def get_weather_icon (description : String) : String :=
  let d := description.toLower
  if d = "clear sky" then "☀️"
  else if d = "few clouds" then "🌤️"
  else if d = "scattered clouds" then "🌥️"
  else if d = "broken clouds" then "☁️"
  else if d = "shower rain" then "🌧️"
  else if d = "rain" then "🌧️"
  else if d = "thunderstorm" then "⛈️"
  else if d = "snow" then "❄️"
  else if d = "mist" ∨ d = "haze" then "🌫️"
  else if d = "fog" then "🌫️"
  else if d = "dust" then "🌪️"
  else if d = "sand" then "🌪️"
  else if d = "tornado" then "🌪️"
  else "🌈"

/-- The recognized-description table of `get_weather_icon` (lines 57-70 of
`src/main.rs`), as an association list: each recognized lowercase
description paired with its fixed glyph. -/
def iconTable : List (String × String) :=
  [("clear sky", "☀️"), ("few clouds", "🌤️"), ("scattered clouds", "🌥️"),
   ("broken clouds", "☁️"), ("shower rain", "🌧️"), ("rain", "🌧️"),
   ("thunderstorm", "⛈️"), ("snow", "❄️"), ("mist", "🌫️"), ("haze", "🌫️"),
   ("fog", "🌫️"), ("dust", "🌪️"), ("sand", "🌪️"), ("tornado", "🌪️")]

/-! ## Config resolver (`get_config`, lines 30-54)

File contents and prompt inputs are modelled as `List Char`. -/

/-- Rust's `char::is_whitespace` (the Unicode `White_Space` property). -/
def rustIsWhitespace (c : Char) : Bool :=
  c = ' ' || c = '\t' || c = '\n' || c.toNat = 11 || c.toNat = 12 || c = '\r' ||
  c.toNat = 133 || c.toNat = 160 || c.toNat = 5760 ||
  (8192 ≤ c.toNat && c.toNat ≤ 8202) ||
  c.toNat = 8232 || c.toNat = 8233 || c.toNat = 8239 || c.toNat = 8287 ||
  c.toNat = 12288

/-- Rust's `str::trim`: drop Unicode whitespace from both ends. -/
def rustTrim (l : List Char) : List Char :=
  ((l.dropWhile rustIsWhitespace).reverse.dropWhile rustIsWhitespace).reverse

/-- Split a character list at every `'\n'`, keeping empty segments
(`n` newlines give `n + 1` segments). -/
def splitNl : List Char → List (List Char)
  | [] => [[]]
  | c :: rest =>
      if c = '\n' then [] :: splitNl rest
      else
        match splitNl rest with
        | [] => [[c]]
        | l :: ls => (c :: l) :: ls

/-- Drop one trailing `'\r'`, as Rust's `str::lines` does on every line. -/
def stripCr (l : List Char) : List Char :=
  if l.getLast? = some '\r' then l.dropLast else l

/-- Rust's `str::lines`: split at `'\n'`, drop a final empty segment (a
trailing line terminator produces no extra line), strip one trailing
`'\r'` from each line. -/
def rustLines (content : List Char) : List (List Char) :=
  let parts := splitNl content
  let parts := if parts.getLast? = some [] then parts.dropLast else parts
  parts.map stripCr

/-- The file-present path of `get_config` (lines 32-37): the first line is
the API key, the second the city, a missing line yields `""`. -/
def getConfigFromFile (content : List Char) : List Char × List Char :=
  let ls := rustLines content
  (ls.getD 0 [], ls.getD 1 [])

/-- The content `format!("{}\n{}", api_key.trim(), city.trim())` written to
`config.txt` on the file-absent path (line 51). -/
def writeConfigContent (apiKeyInput cityInput : List Char) : List Char :=
  rustTrim apiKeyInput ++ '\n' :: rustTrim cityInput

/-! ## Argument resolver and URL (lines 85-95) -/

/-- Effective-city resolution from `main` (lines 85-89): `argv` is the full
argument vector including the program name (`std::env::args`); with more
than one element the elements after the first are joined by single
spaces, otherwise the config's default city is used. -/
def resolveCity (argv : List String) (defaultCity : String) : String :=
  if argv.length > 1 then String.intercalate " " (argv.drop 1) else defaultCity

/-- The request URL (lines 92-95): city and key interpolated verbatim. -/
def mkUrl (city apiKey : String) : String :=
  "https://api.openweathermap.org/data/2.5/weather?q=" ++ city ++
    "&appid=" ++ apiKey ++ "&units=metric"

/-! ## The `main` flow (lines 76-148)

`main` is modelled as a function of an environment supplying the
process's interactions: the config file's content (if the file exists),
the two prompt inputs, whether the config write succeeds, the argument
vector, and the network's answer to the single GET (as a function of the
requested URL).  An HTTP response is a success flag plus the outcome of
parsing its body as JSON (`response.json()`'s parse stage; the parser
itself lives in serde_json, outside this repository). -/

/-- An HTTP response: `status().is_success()` plus the body's JSON-parse
outcome. -/
structure Response where
  success : Bool
  body : Except String Json

/-- The environment of one run. -/
structure Env where
  /-- `fs::read_to_string(CONFIG_FILE)`: the content when the file exists. -/
  configFile : Option (List Char)
  /-- The line read at the API-key prompt. -/
  apiKeyInput : List Char
  /-- The line read at the city prompt. -/
  cityInput : List Char
  /-- Whether `fs::write(CONFIG_FILE, ...)` succeeds. -/
  writeOk : Bool
  /-- `std::env::args`, program name included. -/
  argv : List String
  /-- The transport's answer to a GET of the given URL: a response, or a
  transport-level failure. -/
  transport : String → Except String Response

/-- How a run can fail (every case terminates the process with a non-zero
status). -/
inductive RunError where
  /-- `fs::write(...).expect(...)` failed on the file-absent config path. -/
  | configWrite
  /-- `reqwest::get(&url).await?` failed at the transport level. -/
  | transport (e : String)
  /-- `response.json::<WeatherResponse>().await?` failed on the
  success-status path (JSON parse failure or shape mismatch). -/
  | deserialization (e : String)
  /-- `response.json::<serde_json::Value>().await?` failed on the
  non-success-status path. -/
  | errorBodyParse (e : String)
  /-- `weather_response.weather[0]` panicked: the `weather` array was empty. -/
  | indexPanic
deriving Repr, DecidableEq

/-- A value printed in a table cell: a string, an `f64` (rendered by its
`Display`), or an `i32` (rendered by its `Display`). -/
inductive CellVal where
  | s (v : String)
  | f (v : ℚ)
  | i (v : Int)
deriving Repr, DecidableEq

/-- How a completed (exit code 0) run ends. -/
inductive MainOutcome where
  /-- The two-column table was printed (label, value per row). -/
  | rendered (rows : List (String × CellVal))
  /-- The provider-error line was printed. -/
  | errorPrinted (line : String)
deriving Repr, DecidableEq

/-- `get_config` (lines 30-54): read `(api_key, city)` from the config file
when it exists; otherwise prompt for both, write the trimmed pair back
(failure to write aborts), and return the trimmed pair. -/
def get_config (env : Env) : Except RunError (List Char × List Char) :=
  match env.configFile with
  | some content => .ok (getConfigFromFile content)
  | none =>
      if env.writeOk then .ok (rustTrim env.apiKeyInput, rustTrim env.cityInput)
      else .error .configWrite

/-- The table rows added in lines 112-131, in program order, for a response
`w` whose first condition has description `desc`. -/
def tableRows (w : WeatherResponse) (desc : String) : List (String × CellVal) :=
  [("🌆 City", .s w.name),
   ("🌡️ Temperature (°C)", .f w.main.temp),
   ("💧 Humidity (%)", .i w.main.humidity),
   ("🌬️ Pressure (hPa)", .i w.main.pressure),
   ("🌤️ Condition", .s (get_weather_icon desc ++ " " ++ desc))]

/-- The body of `main` (lines 76-148): resolve the config, resolve the
effective city, build the URL, issue the single GET, then either render
the table (success status), print the provider-error line (non-success
status with a JSON body), or propagate the error. -/
def runMain (env : Env) : Except RunError MainOutcome :=
  match get_config env with
  | .error e => .error e
  | .ok (apiKey, defaultCity) =>
      let city := resolveCity env.argv (String.mk defaultCity)
      let url := mkUrl city (String.mk apiKey)
      match env.transport url with
      | .error e => .error (.transport e)
      | .ok r =>
          if r.success then
            match r.body with
            | .error e => .error (.deserialization e)
            | .ok j =>
                match deserializeWeatherResponse j with
                | .error e => .error (.deserialization e)
                | .ok w =>
                    match w.weather with
                    | [] => .error .indexPanic
                    | c :: _ => .ok (.rendered (tableRows w c.description))
          else
            match r.body with
            | .error e => .error (.errorBodyParse e)
            | .ok v => .ok (.errorPrinted ("❌ Error: " ++ renderJson v))

/-- The process exit status: 0 when `main` completes, non-zero otherwise. -/
def exitCode (r : Except RunError MainOutcome) : Nat :=
  match r with
  | .ok _ => 0
  | .error _ => 1

/-! ## Concrete scenario environments -/

/-- The success body of end-to-end scenario 1:
`{"name":"Paris","main":{"temp":15.0,"pressure":1012,"humidity":60},"weather":[{"description":"clear sky"}]}`. -/
def jsonScenario1 : Json :=
  .obj [("name", .str "Paris"),
        ("main", .obj [("temp", .float 15), ("pressure", .int 1012), ("humidity", .int 60)]),
        ("weather", .arr [.obj [("description", .str "clear sky")]])]

/-- Scenario 1: config file `"abc123\nParis"`, no CLI arguments, provider
answers status 200 with `jsonScenario1`. -/
def envScenario1 : Env :=
  ⟨some "abc123\nParis".data, [], [], true, ["cliweather"],
   fun _ => .ok ⟨true, .ok jsonScenario1⟩⟩

/-- A success body whose `weather` array is empty (all fields present and
well-typed otherwise). -/
def jsonEmptyWeather : Json :=
  .obj [("name", .str "Nowhere"),
        ("main", .obj [("temp", .int 15), ("pressure", .int 1012), ("humidity", .int 60)]),
        ("weather", .arr [])]

/-- Like scenario 1 but the provider answers status 200 with
`jsonEmptyWeather`. -/
def envEmptyWeather : Env :=
  ⟨some "abc123\nParis".data, [], [], true, ["cliweather"],
   fun _ => .ok ⟨true, .ok jsonEmptyWeather⟩⟩

/-- A success body whose `main` field has the wrong type (a string). -/
def jsonWrongType : Json :=
  .obj [("name", .str "Paris"), ("main", .str "oops"), ("weather", .arr [])]

/-- Like scenario 1 but the provider answers status 200 with
`jsonWrongType`. -/
def envWrongType : Env :=
  ⟨some "abc123\nParis".data, [], [], true, ["cliweather"],
   fun _ => .ok ⟨true, .ok jsonWrongType⟩⟩

/-- The error body of end-to-end scenario 3:
`{"cod":"404","message":"city not found"}`. -/
def jsonScenario3 : Json :=
  .obj [("cod", .str "404"), ("message", .str "city not found")]

/-- Scenario 3: the provider answers a non-success status with
`jsonScenario3` as body. -/
def envScenario3 : Env :=
  ⟨some "abc123\nParis".data, [], [], true, ["cliweather"],
   fun _ => .ok ⟨false, .ok jsonScenario3⟩⟩

/-- A non-success response whose body is not valid JSON: the body's parse
stage fails. -/
def envBadErrorBody : Env :=
  ⟨some "abc123\nParis".data, [], [], true, ["cliweather"],
   fun _ => .ok ⟨false, .error "expected value at line 1 column 1"⟩⟩

/-- No config file and the config write fails. -/
def envWriteFail : Env :=
  ⟨none, "key1\n".data, "Tokyo\n".data, false, ["cliweather"],
   fun _ => .error "unused"⟩

/-- The GET itself fails at the transport level. -/
def envTransportFail : Env :=
  ⟨some "abc123\nParis".data, [], [], true, ["cliweather"],
   fun _ => .error "dns error: failed to lookup address"⟩

/-! ## Helper lemmas on line splitting and trimming -/

theorem splitNl_ne_nil (l : List Char) : splitNl l ≠ [] := by
  cases l with
  | nil => simp [splitNl]
  | cons c t =>
      simp only [splitNl]
      split
      · simp
      · split <;> simp

theorem splitNl_eq_self (l : List Char) (h : '\n' ∉ l) : splitNl l = [l] := by
  induction l with
  | nil => rfl
  | cons c t ih =>
      have hc : ¬(c = '\n') := fun e => h (e ▸ List.mem_cons_self c t)
      have ht : '\n' ∉ t := fun m => h (List.mem_cons_of_mem _ m)
      simp [splitNl, hc, ih ht]

theorem splitNl_append (l1 l2 : List Char) (h : '\n' ∉ l1) :
    splitNl (l1 ++ '\n' :: l2) = l1 :: splitNl l2 := by
  induction l1 with
  | nil => simp [splitNl]
  | cons c t ih =>
      have hc : ¬(c = '\n') := fun e => h (e ▸ List.mem_cons_self c t)
      have ht : '\n' ∉ t := fun m => h (List.mem_cons_of_mem _ m)
      simp only [List.cons_append, splitNl, hc, if_false, List.append_eq]
      rw [ih ht]

theorem stripCr_eq_of (l : List Char) (h : l.getLast? ≠ some '\r') :
    stripCr l = l := by
  simp [stripCr, h]

theorem head?_dropWhile_false (p : Char → Bool) (l : List Char) (c : Char)
    (h : (l.dropWhile p).head? = some c) : p c = false := by
  induction l with
  | nil => simp [List.dropWhile] at h
  | cons x xs ih =>
      by_cases hp : p x = true
      · rw [List.dropWhile_cons_of_pos hp] at h
        exact ih h
      · rw [List.dropWhile_cons_of_neg hp] at h
        simp at h
        subst h
        simpa using hp

theorem rustTrim_getLast?_not_ws (l : List Char) (c : Char)
    (h : (rustTrim l).getLast? = some c) : rustIsWhitespace c = false := by
  unfold rustTrim at h
  rw [List.getLast?_reverse] at h
  exact head?_dropWhile_false _ _ _ h

theorem rustTrim_getLast?_ne_cr (l : List Char) :
    (rustTrim l).getLast? ≠ some '\r' := by
  intro h
  have := rustTrim_getLast?_not_ws l '\r' h
  simp [rustIsWhitespace] at this

theorem getConfigFromFile_nil : getConfigFromFile [] = ([], []) := rfl

theorem getConfigFromFile_single (l1 : List Char) (h1 : '\n' ∉ l1)
    (hr1 : l1.getLast? ≠ some '\r') : getConfigFromFile l1 = (l1, []) := by
  unfold getConfigFromFile rustLines
  rw [splitNl_eq_self l1 h1]
  by_cases he : l1 = []
  · subst he; rfl
  · simp [List.getLast?, he, stripCr_eq_of l1 hr1]

theorem getConfigFromFile_pair (l1 l2 : List Char) (h1 : '\n' ∉ l1) (h2 : '\n' ∉ l2)
    (hr1 : l1.getLast? ≠ some '\r') (hr2 : l2.getLast? ≠ some '\r') :
    getConfigFromFile (l1 ++ '\n' :: l2) = (l1, l2) := by
  unfold getConfigFromFile rustLines
  rw [splitNl_append l1 l2 h1, splitNl_eq_self l2 h2]
  by_cases he : l2 = []
  · subst he; simp [List.getLast?, stripCr_eq_of l1 hr1]
  · simp [List.getLast?, he, stripCr_eq_of l1 hr1, stripCr_eq_of l2 hr2]

theorem getConfigFromFile_pair_rest (l1 l2 rest : List Char)
    (h1 : '\n' ∉ l1) (h2 : '\n' ∉ l2)
    (hr1 : l1.getLast? ≠ some '\r') (hr2 : l2.getLast? ≠ some '\r') :
    getConfigFromFile (l1 ++ '\n' :: (l2 ++ '\n' :: rest)) = (l1, l2) := by
  unfold getConfigFromFile rustLines
  rw [splitNl_append l1 _ h1, splitNl_append l2 rest h2]
  obtain ⟨p, ps, hps⟩ : ∃ p ps, splitNl rest = p :: ps := by
    cases hsp : splitNl rest with
    | nil => exact absurd hsp (splitNl_ne_nil rest)
    | cons p ps => exact ⟨p, ps, rfl⟩
  rw [hps]
  by_cases hlast : (p :: ps).getLast? = some []
  · simp [List.getLast?_cons_cons, hlast, List.dropLast, stripCr_eq_of l1 hr1,
      stripCr_eq_of l2 hr2]
  · simp [List.getLast?_cons_cons, hlast, stripCr_eq_of l1 hr1, stripCr_eq_of l2 hr2]

/-! ## Claim theorems -/

/-- **C5**: for every `(api_key, city)` pair entered at the prompts (prompt
inputs are single lines, so their trimmed forms contain no newline),
the file-absent path returns `(trim api_key, trim city)` and writes
`trim api_key ++ "\n" ++ trim city`; reading that content back through
the file-present path yields the same pair `(trim api_key, trim city)`. -/
theorem claim_c5_roundtrip (a c : List Char)
    (h1 : '\n' ∉ rustTrim a) (h2 : '\n' ∉ rustTrim c) :
    (∀ env : Env, env.configFile = none → env.writeOk = true →
        env.apiKeyInput = a → env.cityInput = c →
        get_config env = .ok (rustTrim a, rustTrim c))
    ∧ getConfigFromFile (writeConfigContent a c) = (rustTrim a, rustTrim c) := by
  constructor
  · intro env hf hw ha hc
    simp [get_config, hf, hw, ha, hc]
  · exact getConfigFromFile_pair _ _ h1 h2
      (rustTrim_getLast?_ne_cr a) (rustTrim_getLast?_ne_cr c)

/-- Witness for **C5** at the concrete prompt inputs `"  key1\n"` and
`" Tokyo\n"`. -/
theorem claim_c5_roundtrip_witness :
    '\n' ∉ rustTrim "  key1\n".data ∧ '\n' ∉ rustTrim " Tokyo\n".data ∧
    getConfigFromFile (writeConfigContent "  key1\n".data " Tokyo\n".data) =
      (rustTrim "  key1\n".data, rustTrim " Tokyo\n".data) :=
  ⟨by decide, by decide,
   (claim_c5_roundtrip "  key1\n".data " Tokyo\n".data (by decide) (by decide)).2⟩

/-- **C6**: on the file-present path the Config Resolver returns exactly
(line 1, line 2) of the file content — whatever lines follow are
ignored, a missing second or first line yields `""` for that field, and
the function is total (no error).  The hypotheses state that `l1`, `l2`
are lines: they contain no `'\n'` and do not end in `'\r'` (a trailing
`'\r'` would belong to a `"\r\n"` terminator, not to the line). -/
theorem claim_c6_config_lines (l1 l2 rest : List Char)
    (h1 : '\n' ∉ l1) (h2 : '\n' ∉ l2)
    (hr1 : l1.getLast? ≠ some '\r') (hr2 : l2.getLast? ≠ some '\r') :
    getConfigFromFile (l1 ++ '\n' :: (l2 ++ '\n' :: rest)) = (l1, l2)
    ∧ getConfigFromFile (l1 ++ '\n' :: l2) = (l1, l2)
    ∧ getConfigFromFile l1 = (l1, [])
    ∧ getConfigFromFile [] = ([], []) :=
  ⟨getConfigFromFile_pair_rest l1 l2 rest h1 h2 hr1 hr2,
   getConfigFromFile_pair l1 l2 h1 h2 hr1 hr2,
   getConfigFromFile_single l1 h1 hr1,
   getConfigFromFile_nil⟩

/-- Witness for **C6** at the concrete two-line content `"abc123\nParis"`. -/
theorem claim_c6_config_lines_witness :
    '\n' ∉ "abc123".data ∧ '\n' ∉ "Paris".data ∧
    getConfigFromFile ("abc123".data ++ '\n' :: "Paris".data) =
      ("abc123".data, "Paris".data) :=
  ⟨by decide, by decide,
   (claim_c6_config_lines "abc123".data "Paris".data []
      (by decide) (by decide) (by decide) (by decide)).2.1⟩

/-- **C7**: with at least one argument after the program name the effective
city is the arguments joined by single spaces, independent of the
config's default city; with no argument after the program name it is
exactly the default city. -/
theorem claim_c7_args (prog x : String) (rest : List String) (d d' : String) :
    resolveCity (prog :: x :: rest) d = String.intercalate " " (x :: rest)
    ∧ resolveCity (prog :: x :: rest) d = resolveCity (prog :: x :: rest) d'
    ∧ resolveCity [prog] d = d := by
  have hlen : (prog :: x :: rest).length > 1 := by simp
  refine ⟨?_, ?_, ?_⟩ <;> simp [resolveCity, hlen]

/-- **C8**: `get_weather_icon` is a total function agreeing with the
recognized-description table under case-insensitive comparison: a
lowercased description found in the table yields that entry's glyph,
anything else yields the default `"🌈"` (that is exactly
`(iconTable.lookup s.toLower).getD "🌈"`). -/
theorem claim_c8_icon (s : String) :
    get_weather_icon s = (iconTable.lookup s.toLower).getD "🌈" := by
  simp only [get_weather_icon]
  generalize s.toLower = d
  by_cases e1 : d = "clear sky"
  · subst e1; decide
  by_cases e2 : d = "few clouds"
  · subst e2; decide
  by_cases e3 : d = "scattered clouds"
  · subst e3; decide
  by_cases e4 : d = "broken clouds"
  · subst e4; decide
  by_cases e5 : d = "shower rain"
  · subst e5; decide
  by_cases e6 : d = "rain"
  · subst e6; decide
  by_cases e7 : d = "thunderstorm"
  · subst e7; decide
  by_cases e8 : d = "snow"
  · subst e8; decide
  by_cases e9 : d = "mist"
  · subst e9; decide
  by_cases e10 : d = "haze"
  · subst e10; decide
  by_cases e11 : d = "fog"
  · subst e11; decide
  by_cases e12 : d = "dust"
  · subst e12; decide
  by_cases e13 : d = "sand"
  · subst e13; decide
  by_cases e14 : d = "tornado"
  · subst e14; decide
  simp [iconTable, List.lookup, e1, e2, e3, e4, e5, e6, e7, e8, e9, e10, e11,
    e12, e13, e14,
    beq_eq_false_iff_ne.mpr e1, beq_eq_false_iff_ne.mpr e2,
    beq_eq_false_iff_ne.mpr e3, beq_eq_false_iff_ne.mpr e4,
    beq_eq_false_iff_ne.mpr e5, beq_eq_false_iff_ne.mpr e6,
    beq_eq_false_iff_ne.mpr e7, beq_eq_false_iff_ne.mpr e8,
    beq_eq_false_iff_ne.mpr e9, beq_eq_false_iff_ne.mpr e10,
    beq_eq_false_iff_ne.mpr e11, beq_eq_false_iff_ne.mpr e12,
    beq_eq_false_iff_ne.mpr e13, beq_eq_false_iff_ne.mpr e14]

/-- **C9**: the request URL is exactly the documented template with city and
key interpolated verbatim; in particular a space in the city reaches the
URL unencoded (second conjunct, at `city = "New York"`). -/
theorem claim_c9_url (city apiKey : String) :
    mkUrl city apiKey =
      "https://api.openweathermap.org/data/2.5/weather?q=" ++ city ++ "&appid=" ++
        apiKey ++ "&units=metric"
    ∧ mkUrl "New York" "api key" =
      "https://api.openweathermap.org/data/2.5/weather?q=New York&appid=api key&units=metric" :=
  ⟨rfl, by decide⟩

/-- **C1 counterexample**: the rendered rows are not in the claimed order
city, temperature, pressure, humidity, condition — the program emits
humidity before pressure (lines 119-127 of `src/main.rs`). -/
theorem claim_c1_order_counterexample :
    (tableRows ⟨⟨15, 1012, 60⟩, "Paris", [⟨"clear sky"⟩]⟩ "clear sky").map Prod.fst ≠
      ["🌆 City", "🌡️ Temperature (°C)", "🌬️ Pressure (hPa)", "💧 Humidity (%)",
       "🌤️ Condition"] := by
  decide

/-- **C1 (amended)**: on a success-status response the rendered table
contains exactly the rows city name, temperature, humidity, pressure,
and condition (description with icon), in that order; every rendered
outcome of a run carries exactly this row set and ordering. -/
theorem claim_c1_rows (env : Env) (rows : List (String × CellVal))
    (h : runMain env = .ok (.rendered rows)) :
    rows.map Prod.fst =
      ["🌆 City", "🌡️ Temperature (°C)", "💧 Humidity (%)", "🌬️ Pressure (hPa)",
       "🌤️ Condition"] := by
  unfold runMain at h
  cases hcfg : get_config env with
  | error e => simp only [hcfg] at h; exact Except.noConfusion h
  | ok kc =>
      obtain ⟨key, dcity⟩ := kc
      simp only [hcfg] at h
      cases htr : env.transport (mkUrl (resolveCity env.argv (String.mk dcity)) (String.mk key)) with
      | error e => simp only [htr] at h; exact Except.noConfusion h
      | ok r =>
          simp only [htr] at h
          cases hs : r.success with
          | false =>
              simp only [hs, Bool.false_eq_true, if_false] at h
              cases hb : r.body with
              | error e => simp only [hb] at h; exact Except.noConfusion h
              | ok v => simp only [hb] at h; simp at h
          | true =>
              simp only [hs, if_true] at h
              cases hb : r.body with
              | error e => simp only [hb] at h; exact Except.noConfusion h
              | ok j =>
                  simp only [hb] at h
                  cases hd : deserializeWeatherResponse j with
                  | error e => simp only [hd] at h; exact Except.noConfusion h
                  | ok w =>
                      simp only [hd] at h
                      cases hw : w.weather with
                      | nil => simp only [hw] at h; exact Except.noConfusion h
                      | cons c t =>
                          simp only [hw] at h
                          simp only [Except.ok.injEq, MainOutcome.rendered.injEq] at h
                          rw [← h]
                          simp [tableRows]

/-- Witness for **C1 (amended)**: scenario 1 renders, and its rows carry
the program's fixed labels in program order. -/
theorem claim_c1_rows_witness :
    runMain envScenario1 =
      .ok (.rendered (tableRows ⟨⟨15, 1012, 60⟩, "Paris", [⟨"clear sky"⟩]⟩ "clear sky"))
    ∧ (tableRows ⟨⟨15, 1012, 60⟩, "Paris", [⟨"clear sky"⟩]⟩ "clear sky").map Prod.fst =
      ["🌆 City", "🌡️ Temperature (°C)", "💧 Humidity (%)", "🌬️ Pressure (hPa)",
       "🌤️ Condition"] := by
  have h : runMain envScenario1 =
      .ok (.rendered (tableRows ⟨⟨15, 1012, 60⟩, "Paris", [⟨"clear sky"⟩]⟩ "clear sky")) := by
    rfl
  exact ⟨h, claim_c1_rows envScenario1 _ h⟩

/-- **C2 counterexample**: a success body whose `weather` array is empty
deserializes successfully (no `DeserializationError`), and the run then
fails later, with the index panic at `weather_response.weather[0]`. -/
theorem claim_c2_empty_weather_counterexample :
    (deserializeWeatherResponse jsonEmptyWeather).isOk = true
    ∧ runMain envEmptyWeather = .error .indexPanic := by
  constructor <;> rfl

/-- **C2 (amended)**: on a success-status response, a body that fails to
parse, a missing field, or a wrong type makes `response.json()` fail
with a deserialization error that propagates to the top level and aborts
the run; an empty `weather` array, however, deserializes successfully
and the run aborts later with an index panic at `weather[0]`. -/
theorem claim_c2_deser (env : Env) (key dcity : List Char) (r : Response)
    (hcfg : get_config env = .ok (key, dcity))
    (htr : env.transport
        (mkUrl (resolveCity env.argv (String.mk dcity)) (String.mk key)) = .ok r)
    (hs : r.success = true) :
    (∀ e, r.body = .error e → runMain env = .error (.deserialization e))
    ∧ (∀ j e, r.body = .ok j → deserializeWeatherResponse j = .error e →
        runMain env = .error (.deserialization e))
    ∧ (∀ j w, r.body = .ok j → deserializeWeatherResponse j = .ok w → w.weather = [] →
        runMain env = .error .indexPanic)
    ∧ deserializeWeatherResponse
        (.obj [("name", .str "Paris"),
               ("weather", .arr [.obj [("description", .str "clear sky")]])]) =
        .error "missing field main"
    ∧ deserializeWeatherResponse jsonWrongType =
        .error "invalid type: expected struct Main" := by
  refine ⟨?_, ?_, ?_, rfl, rfl⟩
  · intro e hb
    simp [runMain, hcfg, htr, hs, hb]
  · intro j e hb hd
    simp [runMain, hcfg, htr, hs, hb, hd]
  · intro j w hb hd hw
    simp [runMain, hcfg, htr, hs, hb, hd, hw]

/-- Witness for **C2 (amended)** at `envWrongType`: the wrong-type body
aborts the run with the deserialization error. -/
theorem claim_c2_deser_witness :
    get_config envWrongType = .ok ("abc123".data, "Paris".data)
    ∧ runMain envWrongType = .error (.deserialization "invalid type: expected struct Main") := by
  have h := claim_c2_deser envWrongType "abc123".data "Paris".data
    ⟨true, .ok jsonWrongType⟩ (by rfl) (by rfl) rfl
  exact ⟨by rfl, h.2.1 jsonWrongType _ rfl (by rfl)⟩

/-- **C3**: on a non-success response whose body parses as a JSON value,
the run prints the single line `❌ Error: <compact JSON>` and completes
with exit code 0 (`runMain` makes exactly one `transport` application by
construction: there is no retry). -/
theorem claim_c3_provider_error (env : Env) (key dcity : List Char) (r : Response) (j : Json)
    (hcfg : get_config env = .ok (key, dcity))
    (htr : env.transport
        (mkUrl (resolveCity env.argv (String.mk dcity)) (String.mk key)) = .ok r)
    (hs : r.success = false) (hb : r.body = .ok j) :
    runMain env = .ok (.errorPrinted ("❌ Error: " ++ renderJson j))
    ∧ exitCode (runMain env) = 0 := by
  have hm : runMain env = .ok (.errorPrinted ("❌ Error: " ++ renderJson j)) := by
    simp [runMain, hcfg, htr, hs, hb]
  exact ⟨hm, by rw [hm]; rfl⟩

/-- Witness for **C3**: scenario 3 (status 404 with the city-not-found
body) prints the provider-error line and exits 0. -/
theorem claim_c3_provider_error_witness :
    runMain envScenario3 = .ok (.errorPrinted ("❌ Error: " ++ renderJson jsonScenario3))
    ∧ exitCode (runMain envScenario3) = 0 :=
  claim_c3_provider_error envScenario3 "abc123".data "Paris".data
    ⟨false, .ok jsonScenario3⟩ jsonScenario3 (by rfl) (by rfl) rfl rfl

/-- **C4**: on a non-success response whose body does not parse as JSON,
the parse error propagates to the top level: the run exits non-zero and
the error-marker line is never printed. -/
theorem claim_c4_bad_error_body (env : Env) (key dcity : List Char) (r : Response) (e : String)
    (hcfg : get_config env = .ok (key, dcity))
    (htr : env.transport
        (mkUrl (resolveCity env.argv (String.mk dcity)) (String.mk key)) = .ok r)
    (hs : r.success = false) (hb : r.body = .error e) :
    runMain env = .error (.errorBodyParse e)
    ∧ exitCode (runMain env) ≠ 0
    ∧ ∀ line, runMain env ≠ .ok (.errorPrinted line) := by
  have hm : runMain env = .error (.errorBodyParse e) := by
    simp [runMain, hcfg, htr, hs, hb]
  refine ⟨hm, by rw [hm]; simp [exitCode], fun line hcontra => ?_⟩
  rw [hm] at hcontra
  exact Except.noConfusion hcontra

/-- Witness for **C4** at `envBadErrorBody`. -/
theorem claim_c4_bad_error_body_witness :
    runMain envBadErrorBody = .error (.errorBodyParse "expected value at line 1 column 1")
    ∧ exitCode (runMain envBadErrorBody) ≠ 0 := by
  have h := claim_c4_bad_error_body envBadErrorBody "abc123".data "Paris".data
    ⟨false, .error "expected value at line 1 column 1"⟩ "expected value at line 1 column 1"
    (by rfl) (by rfl) rfl rfl
  exact ⟨h.1, h.2.1⟩

/-- **C10**: every error other than a provider-reported one — config write
failure, transport failure, and success-response deserialization failure
(JSON parse failure or shape mismatch) — makes `runMain` return that
error, terminating with a non-zero exit status; completed runs alone
exit 0.  `runMain` applies `env.transport` exactly once by construction:
no retry, and no branch produces a partial result. -/
theorem claim_c10_propagation (env : Env) :
    (env.configFile = none → env.writeOk = false →
      runMain env = .error .configWrite ∧ exitCode (runMain env) ≠ 0)
    ∧ (∀ key dcity e, get_config env = .ok (key, dcity) →
        env.transport
          (mkUrl (resolveCity env.argv (String.mk dcity)) (String.mk key)) = .error e →
        runMain env = .error (.transport e) ∧ exitCode (runMain env) ≠ 0)
    ∧ (∀ key dcity r e, get_config env = .ok (key, dcity) →
        env.transport
          (mkUrl (resolveCity env.argv (String.mk dcity)) (String.mk key)) = .ok r →
        r.success = true → r.body = .error e →
        runMain env = .error (.deserialization e) ∧ exitCode (runMain env) ≠ 0)
    ∧ (∀ key dcity r j e, get_config env = .ok (key, dcity) →
        env.transport
          (mkUrl (resolveCity env.argv (String.mk dcity)) (String.mk key)) = .ok r →
        r.success = true → r.body = .ok j → deserializeWeatherResponse j = .error e →
        runMain env = .error (.deserialization e) ∧ exitCode (runMain env) ≠ 0)
    ∧ (∀ er, runMain env = .error er → exitCode (runMain env) ≠ 0) := by
  refine ⟨?_, ?_, ?_, ?_, ?_⟩
  · intro hf hw
    have hm : runMain env = .error .configWrite := by
      simp [runMain, get_config, hf, hw]
    exact ⟨hm, by rw [hm]; simp [exitCode]⟩
  · intro key dcity e hcfg htr
    have hm : runMain env = .error (.transport e) := by
      simp [runMain, hcfg, htr]
    exact ⟨hm, by rw [hm]; simp [exitCode]⟩
  · intro key dcity r e hcfg htr hs hb
    have hm : runMain env = .error (.deserialization e) := by
      simp [runMain, hcfg, htr, hs, hb]
    exact ⟨hm, by rw [hm]; simp [exitCode]⟩
  · intro key dcity r j e hcfg htr hs hb hd
    have hm : runMain env = .error (.deserialization e) := by
      simp [runMain, hcfg, htr, hs, hb, hd]
    exact ⟨hm, by rw [hm]; simp [exitCode]⟩
  · intro er hm
    rw [hm]; simp [exitCode]

/-- Witness for **C10**: the config-write-failure environment and the
transport-failure environment both end with the matching top-level
error and a non-zero exit status. -/
theorem claim_c10_propagation_witness :
    (runMain envWriteFail = .error .configWrite ∧ exitCode (runMain envWriteFail) ≠ 0)
    ∧ (runMain envTransportFail = .error (.transport "dns error: failed to lookup address")
        ∧ exitCode (runMain envTransportFail) ≠ 0) :=
  ⟨(claim_c10_propagation envWriteFail).1 rfl rfl,
   (claim_c10_propagation envTransportFail).2.1 "abc123".data "Paris".data
     "dns error: failed to lookup address" (by rfl) (by rfl)⟩

end CliWeather
